import Mathlib

/-!
Verification of the stoolap-python binding layer (PyO3 glue between Python
and the stoolap SQL engine) against its natural-language specification.

The development shallowly embeds the binding code:
* `src/value.rs`   : host-value <-> engine-value codec (`py_to_value`,
  `py_datetime_to_value`, `value_to_py`, `parse_params`);
* `src/database.rs`: `Database::execute_batch`, `translate_path`,
  `split_sql_statements`, row shaping helpers;
* `src/statement.rs`: `PreparedStatement::execute_batch`;
* `src/transaction.rs`: the `Mutex<Option<ApiTransaction>>` state machine
  (`with_tx`, `commit`, `rollback`, `__exit__`, the data operations).

The stoolap engine itself (parser, planner, MVCC storage) and the chrono
date library are external collaborators; they are modelled by oracles
(`Engine`) and by the standard civil-calendar arithmetic (Hinnant's
`days_from_civil` / `civil_from_days`, the mathematical functions that
chrono's field accessors and `NaiveDate::from_ymd_opt` compute).
-/

/-! ## Civil calendar arithmetic

`daysFromCivil` maps a calendar date to its day number relative to
1970-01-01 (the function computed by chrono when a `NaiveDate` built with
`from_ymd_opt` is turned into a Unix timestamp).  `civilFromDays` is the
inverse direction (the function computed by chrono's `year()/month()/day()`
accessors on a `DateTime<Utc>`).  Both are Howard Hinnant's well-known
algorithms written with floor division (`/` on `Int` below is Euclidean
division, which coincides with floor division for the positive literal
divisors used here).  `civilFromDays` is split into one definition per
intermediate quantity so that each can be characterised separately in
proofs. -/

def daysFromCivil (y m d : Int) : Int :=
  let y' := if m ≤ 2 then y - 1 else y
  let era := y' / 400
  let yoe := y' - era * 400
  let doy := ((153 * (if m > 2 then m - 3 else m + 9) + 2) / 5) + d - 1
  let doe := yoe * 365 + yoe / 4 - yoe / 100 + doy
  era * 146097 + doe - 719468

def cfdZ (z : Int) : Int := z + 719468

def cfdEra (z : Int) : Int := cfdZ z / 146097

def cfdDoe (z : Int) : Int := cfdZ z - cfdEra z * 146097

def cfdYoe (z : Int) : Int :=
  (cfdDoe z - cfdDoe z / 1460 + cfdDoe z / 36524 - cfdDoe z / 146096) / 365

def cfdDoy (z : Int) : Int :=
  cfdDoe z - (365 * cfdYoe z + cfdYoe z / 4 - cfdYoe z / 100)

def cfdMp (z : Int) : Int := (5 * cfdDoy z + 2) / 153

def cfdD (z : Int) : Int := cfdDoy z - (153 * cfdMp z + 2) / 5 + 1

def cfdM (z : Int) : Int := if cfdMp z < 10 then cfdMp z + 3 else cfdMp z - 9

def cfdY (z : Int) : Int :=
  if cfdM z ≤ 2 then cfdYoe z + cfdEra z * 400 + 1 else cfdYoe z + cfdEra z * 400

/-- Day number to (year, month, day), Hinnant's `civil_from_days`. -/
def civilFromDays (z : Int) : Int × Int × Int := (cfdY z, cfdM z, cfdD z)

set_option maxHeartbeats 4000000 in
/-- Day-of-year stays in `[0, 365]`: the heart of the `civil_from_days`
round trip, proved by exhausting the 400 years of one era. -/
theorem doy_core (doe q1 q2 q3 yoe q5 q6 : Int)
    (h0 : 0 ≤ doe) (h1 : doe < 146097)
    (hq1 : 1460 * q1 ≤ doe ∧ doe < 1460 * q1 + 1460)
    (hq2 : 36524 * q2 ≤ doe ∧ doe < 36524 * q2 + 36524)
    (hq3 : 146096 * q3 ≤ doe ∧ doe < 146096 * q3 + 146096)
    (hy : 365 * yoe ≤ doe - q1 + q2 - q3 ∧ doe - q1 + q2 - q3 < 365 * yoe + 365)
    (hq5 : 4 * q5 ≤ yoe ∧ yoe < 4 * q5 + 4)
    (hq6 : 100 * q6 ≤ yoe ∧ yoe < 100 * q6 + 100) :
    0 ≤ doe - (365 * yoe + q5 - q6) ∧ doe - (365 * yoe + q5 - q6) ≤ 365 := by
  have hb0 : 0 ≤ yoe := by omega
  have hb1 : yoe ≤ 399 := by omega
  interval_cases yoe <;> omega

theorem ediv400_eq (x q : Int) (h1 : 400 * q ≤ x) (h2 : x < 400 * q + 400) :
    x / 400 = q := by omega

theorem ediv4_eq (x q : Int) (h1 : 4 * q ≤ x) (h2 : x < 4 * q + 4) :
    x / 4 = q := by omega

theorem ediv100_eq (x q : Int) (h1 : 100 * q ≤ x) (h2 : x < 100 * q + 100) :
    x / 100 = q := by omega

theorem ediv5_eq (x q : Int) (h1 : 5 * q ≤ x) (h2 : x < 5 * q + 5) :
    x / 5 = q := by omega

theorem yoe_bounds (doe q1 q2 q3 yoe : Int)
    (h0 : 0 ≤ doe) (h1 : doe < 146097)
    (hq1 : 1460 * q1 ≤ doe ∧ doe < 1460 * q1 + 1460)
    (hq2 : 36524 * q2 ≤ doe ∧ doe < 36524 * q2 + 36524)
    (hq3 : 146096 * q3 ≤ doe ∧ doe < 146096 * q3 + 146096)
    (hy : 365 * yoe ≤ doe - q1 + q2 - q3 ∧ doe - q1 + q2 - q3 < 365 * yoe + 365) :
    0 ≤ yoe ∧ yoe ≤ 399 := by
  omega

/-- Linear-arithmetic core of `daysFromCivil ∘ civilFromDays = id`: all
division results appear as abstract variables constrained by their
characterising inequalities. -/
theorem hinnant_master (z z' era doe q1 q2 q3 yoe q5 q6 doy mp c5 d m y0 : Int)
    (hz' : z' = z + 719468)
    (hdoeb : 0 ≤ doe ∧ doe < 146097)
    (hera : 146097 * era ≤ z' ∧ z' < 146097 * era + 146097)
    (hdoe : doe = z' - era * 146097)
    (hc1 : 1460 * q1 ≤ doe ∧ doe < 1460 * q1 + 1460)
    (hc2 : 36524 * q2 ≤ doe ∧ doe < 36524 * q2 + 36524)
    (hc3 : 146096 * q3 ≤ doe ∧ doe < 146096 * q3 + 146096)
    (hy : 365 * yoe ≤ doe - q1 + q2 - q3 ∧ doe - q1 + q2 - q3 < 365 * yoe + 365)
    (hc5a : 4 * q5 ≤ yoe ∧ yoe < 4 * q5 + 4)
    (hc6a : 100 * q6 ≤ yoe ∧ yoe < 100 * q6 + 100)
    (hdoy : doy = doe - (365 * yoe + q5 - q6))
    (hdoyb : 0 ≤ doy ∧ doy ≤ 365)
    (hmp : 153 * mp ≤ 5 * doy + 2 ∧ 5 * doy + 2 < 153 * mp + 153)
    (hc5 : 5 * c5 ≤ 153 * mp + 2 ∧ 153 * mp + 2 < 5 * c5 + 5)
    (hd : d = doy - c5 + 1)
    (hm : m = if mp < 10 then mp + 3 else mp - 9)
    (hy0 : y0 = yoe + era * 400) :
    daysFromCivil (if m ≤ 2 then y0 + 1 else y0) m d = z := by
  have hyoeb : 0 ≤ yoe ∧ yoe ≤ 399 :=
    yoe_bounds doe q1 q2 q3 yoe hdoeb.1 hdoeb.2 hc1 hc2 hc3 hy
  have hmpb : 0 ≤ mp ∧ mp ≤ 11 := by clear * - hmp hdoyb; omega
  by_cases hlt : mp < 10
  · have hmeq : m = mp + 3 := by rw [hm]; simp [hlt]
    have hm2 : ¬ (m ≤ 2) := by clear * - hmeq hlt hmpb; omega
    have hm3 : m > 2 := by clear * - hmeq hmpb; omega
    simp only [daysFromCivil, if_neg hm2, if_pos hm3]
    rw [show 153 * (m - 3) + 2 = 153 * mp + 2 by clear * - hmeq; omega]
    rw [ediv400_eq y0 era (by clear * - hy0 hyoeb; omega) (by clear * - hy0 hyoeb; omega)]
    rw [show y0 - era * 400 = yoe by clear * - hy0; omega]
    rw [ediv4_eq yoe q5 hc5a.1 hc5a.2, ediv100_eq yoe q6 hc6a.1 hc6a.2,
        ediv5_eq (153 * mp + 2) c5 hc5.1 hc5.2]
    clear * - hz' hdoe hdoy hd
    omega
  · have hmeq : m = mp - 9 := by rw [hm]; simp [hlt]
    have hm2 : m ≤ 2 := by clear * - hmeq hlt hmpb; omega
    have hm3 : ¬ (m > 2) := by clear * - hm2; omega
    simp only [daysFromCivil, if_pos hm2, if_neg hm3]
    rw [show 153 * (m + 9) + 2 = 153 * mp + 2 by clear * - hmeq; omega]
    rw [show y0 + 1 - 1 = y0 by ring]
    rw [ediv400_eq y0 era (by clear * - hy0 hyoeb; omega) (by clear * - hy0 hyoeb; omega)]
    rw [show y0 - era * 400 = yoe by clear * - hy0; omega]
    rw [ediv4_eq yoe q5 hc5a.1 hc5a.2, ediv100_eq yoe q6 hc6a.1 hc6a.2,
        ediv5_eq (153 * mp + 2) c5 hc5.1 hc5.2]
    clear * - hz' hdoe hdoy hd
    omega

/-- `daysFromCivil` inverts `civilFromDays` on every day number. -/
theorem daysFromCivil_civilFromDays (z : Int) :
    daysFromCivil (civilFromDays z).1 (civilFromDays z).2.1 (civilFromDays z).2.2 = z := by
  have hdoeb : 0 ≤ cfdDoe z ∧ cfdDoe z < 146097 := by unfold cfdDoe cfdEra; omega
  have hc1 : 1460 * (cfdDoe z / 1460) ≤ cfdDoe z ∧
      cfdDoe z < 1460 * (cfdDoe z / 1460) + 1460 := by omega
  have hc2 : 36524 * (cfdDoe z / 36524) ≤ cfdDoe z ∧
      cfdDoe z < 36524 * (cfdDoe z / 36524) + 36524 := by omega
  have hc3 : 146096 * (cfdDoe z / 146096) ≤ cfdDoe z ∧
      cfdDoe z < 146096 * (cfdDoe z / 146096) + 146096 := by omega
  have hyc : 365 * cfdYoe z ≤ cfdDoe z - cfdDoe z / 1460 + cfdDoe z / 36524 - cfdDoe z / 146096 ∧
      cfdDoe z - cfdDoe z / 1460 + cfdDoe z / 36524 - cfdDoe z / 146096 < 365 * cfdYoe z + 365 := by
    unfold cfdYoe; omega
  have hc5a : 4 * (cfdYoe z / 4) ≤ cfdYoe z ∧ cfdYoe z < 4 * (cfdYoe z / 4) + 4 := by omega
  have hc6a : 100 * (cfdYoe z / 100) ≤ cfdYoe z ∧ cfdYoe z < 100 * (cfdYoe z / 100) + 100 := by omega
  have hdoyb : 0 ≤ cfdDoy z ∧ cfdDoy z ≤ 365 := by
    have := doy_core (cfdDoe z) (cfdDoe z / 1460) (cfdDoe z / 36524)
      (cfdDoe z / 146096) (cfdYoe z) (cfdYoe z / 4) (cfdYoe z / 100)
      hdoeb.1 hdoeb.2 hc1 hc2 hc3 hyc hc5a hc6a
    unfold cfdDoy
    omega
  have goal := hinnant_master z (cfdZ z) (cfdEra z) (cfdDoe z)
    (cfdDoe z / 1460) (cfdDoe z / 36524) (cfdDoe z / 146096)
    (cfdYoe z) (cfdYoe z / 4) (cfdYoe z / 100)
    (cfdDoy z) (cfdMp z) ((153 * cfdMp z + 2) / 5) (cfdD z) (cfdM z)
    (cfdYoe z + cfdEra z * 400)
    (by unfold cfdZ; ring)
    hdoeb
    (by unfold cfdEra; omega)
    (by unfold cfdDoe; ring)
    hc1 hc2 hc3 hyc hc5a hc6a
    (by unfold cfdDoy; ring)
    hdoyb
    (by unfold cfdMp; omega)
    (by omega)
    (by unfold cfdD; ring)
    rfl
    (by ring)
  have hY : cfdY z =
      if cfdM z ≤ 2 then cfdYoe z + cfdEra z * 400 + 1 else cfdYoe z + cfdEra z * 400 := rfl
  show daysFromCivil (cfdY z) (cfdM z) (cfdD z) = z
  rw [hY]
  exact goal

/-! ## Time of day

A `chrono::DateTime<Utc>` (the payload of `Value::Timestamp`) denotes an
instant; the binding constructs it with microsecond precision
(`and_hms_micro_opt`), so the model carries the instant as microseconds
since the Unix epoch.  The field accessors used by `value_to_py`
(`year() .. second(), timestamp_subsec_micros()`) compute the functions
below (floor division; `%` on `Int` is Euclidean remainder, nonnegative
for the positive literal divisors used, matching chrono's representation
of pre-epoch instants). -/

def tsDays (t : Int) : Int := t / 86400000000

def tsSod (t : Int) : Int := t % 86400000000

def tsHour (t : Int) : Int := tsSod t / 3600000000

def tsMinute (t : Int) : Int := tsSod t % 3600000000 / 60000000

def tsSecond (t : Int) : Int := tsSod t % 60000000 / 1000000

def tsMicro (t : Int) : Int := t % 1000000

theorem sod_recompose (t : Int) :
    tsHour t * 3600000000 + tsMinute t * 60000000 + tsSecond t * 1000000 + tsMicro t
      = tsSod t := by
  unfold tsHour tsMinute tsSecond tsMicro tsSod
  omega

theorem days_sod (t : Int) : tsDays t * 86400000000 + tsSod t = t := by
  unfold tsDays tsSod
  omega

/-! ## Host and engine value models

`PyDT` models a `datetime.datetime` as seen through PyO3's C-API
accessors (`get_year() .. get_microsecond(), get_tzinfo()`).

The `tz` field distinguishes the three cases the Rust code does:
`none` = no tzinfo (naive); `some none` = a tzinfo whose `utcoffset()`
returns `None`; `some (some o)` = a fixed UTC offset of `o` seconds.
The Rust code extracts the offset as `total_seconds() as i64`; offsets
are modelled directly as whole seconds (Python's `timezone` offsets are
whole seconds in practice; fractional-second truncation is not modelled).
-/

structure PyDT where
  year : Int
  month : Int
  day : Int
  hour : Int
  minute : Int
  second : Int
  micro : Int
  tz : Option (Option Int)
  deriving DecidableEq, Repr

/-- The UTC instant (epoch microseconds) denoted by the wall-clock fields
of a `PyDT` read as UTC — what `Utc.from_utc_datetime` yields on the
`NaiveDateTime` built from the fields. -/
def epochMicros (dt : PyDT) : Int :=
  daysFromCivil dt.year dt.month dt.day * 86400000000
    + dt.hour * 3600000000 + dt.minute * 60000000 + dt.second * 1000000 + dt.micro

/-- The `datetime` object built by `value_to_py` for the instant `t`:
chrono's field accessors applied to `t`, with `tzinfo = timezone.utc`
(offset 0). -/
def tsPyDT (t : Int) : PyDT :=
  { year := (civilFromDays (tsDays t)).1
    month := (civilFromDays (tsDays t)).2.1
    day := (civilFromDays (tsDays t)).2.2
    hour := tsHour t
    minute := tsMinute t
    second := tsSecond t
    micro := tsMicro t
    tz := some (some 0) }

/-- Re-encoding the decoded fields of an instant yields the instant back. -/
theorem epochMicros_tsPyDT (t : Int) : epochMicros (tsPyDT t) = t := by
  simp only [epochMicros, tsPyDT]
  rw [daysFromCivil_civilFromDays (tsDays t)]
  have h1 := sod_recompose t
  have h2 := days_sod t
  omega

def isLeapYear (y : Int) : Bool := (y % 4 = 0 ∧ y % 100 ≠ 0) ∨ y % 400 = 0

def daysInMonth (y m : Int) : Int :=
  if m = 2 then (if isLeapYear y then 29 else 28)
  else if m = 4 ∨ m = 6 ∨ m = 9 ∨ m = 11 then 30
  else 31

/-- The invariant every real `datetime.datetime` object satisfies (enforced
by its constructor).  It implies that chrono's `from_ymd_opt` and
`and_hms_micro_opt` in `py_datetime_to_value` succeed, so the structured
conversion path is taken and the `.timestamp()` fallback is dead code for
genuine Python datetimes. -/
def validDT (dt : PyDT) : Prop :=
  1 ≤ dt.year ∧ dt.year ≤ 9999 ∧
  1 ≤ dt.month ∧ dt.month ≤ 12 ∧
  1 ≤ dt.day ∧ dt.day ≤ daysInMonth dt.year dt.month ∧
  0 ≤ dt.hour ∧ dt.hour < 24 ∧
  0 ≤ dt.minute ∧ dt.minute < 60 ∧
  0 ≤ dt.second ∧ dt.second < 60 ∧
  0 ≤ dt.micro ∧ dt.micro < 1000000

instance (dt : PyDT) : Decidable (validDT dt) := by
  unfold validDT; infer_instance

/-- Engine value union (`stoolap::core::Value`).  64-bit floats are
carried as their bit patterns (the codec only passes them through);
`vectorV` holds the f32 bit patterns of a native VECTOR; `json` holds the
raw encoded text.  `Value::Null` carries an engine-internal type tag that
the binding never inspects (`null_unknown`), so it is modelled as a bare
constructor.  Timestamps are the instant in epoch microseconds (see
above). -/
inductive Value where
  | nullV
  | boolean (b : Bool)
  | integer (i : Int)
  | float (bits : Nat)
  | text (s : String)
  | timestamp (micros : Int)
  | vectorV (elems : List Nat)
  | json (s : String)
  deriving DecidableEq, Repr

/-- Host (Python) values as the binding distinguishes them.  `other`
stands for any object of an unsupported type, carrying the type name used
in the error message. -/
inductive PyObj where
  | none
  | bool (b : Bool)
  | int (i : Int)
  | float (bits : Nat)
  | str (s : String)
  | datetime (dt : PyDT)
  | vector (data : List Nat)
  | tuple (xs : List PyObj)
  | list (xs : List PyObj)
  | dict (kvs : List (String × PyObj))
  | other (typeName : String)
  deriving Repr

/-- Python exception classes raised by the binding. -/
inductive PyErr where
  | typeError (msg : String)
  | overflowError (msg : String)
  | stoolapError (msg : String)
  deriving DecidableEq, Repr

/-! ## Value codec (`src/value.rs`)

The Rust code classifies a Python object by a fixed downcast chain
(None, then `PyBool` before `PyInt` because `bool` subclasses `int`, then
`PyFloat`, `PyString`, `PyDateTime`, `PyVector`, `PyDict`/`PyList`).  The
model's `PyObj` constructors are the disjoint outcomes of that chain, so
each match arm below corresponds to exactly one downcast branch. -/

/-- Widen an IEEE-754 binary32 bit pattern to the binary64 pattern of the
same value (what happens when a stored `f32` vector element is turned
into a Python `float`).  Handles normal, subnormal, zero, infinity and
NaN inputs. -/
def f32ToF64bits (b : Nat) : Nat :=
  let s := b / 2 ^ 31 % 2
  let e := b / 2 ^ 23 % 256
  let m := b % 2 ^ 23
  if e = 255 then s * 2 ^ 63 + 2047 * 2 ^ 52 + m * 2 ^ 29
  else if e = 0 then
    if m = 0 then s * 2 ^ 63
    else
      let k := Nat.log2 m
      s * 2 ^ 63 + (k + 874) * 2 ^ 52 + (m - 2 ^ k) * 2 ^ (52 - k)
  else s * 2 ^ 63 + (e + 896) * 2 ^ 52 + m * 2 ^ 29

/-- Stands for the text produced by Python's `json.dumps` on the given
object (an external library call, cached in a `GILOnceCell`); no claim
depends on its exact form. -/
def jsonDumps (o : PyObj) : String := "json-dumps:" ++ reprStr o

/-- Marker for the result of the `.timestamp()` fallback branch of
`py_datetime_to_value`.  That branch runs only when the tzinfo's
`utcoffset()` returns `None` (then Python interprets the datetime in the
host's local timezone — outside the model) or when the wall-clock fields
fall outside chrono's ranges, which cannot happen for a genuine
`datetime.datetime` (see `validDT`).  No claim exercises this branch. -/
def dtFallbackValue (dt : PyDT) : Value := .text ("datetime-fallback:" ++ reprStr dt)

/-- Marker for chrono's `%Y-%m-%dT%H:%M:%S%.fZ`-formatted string, the
fallback `value_to_py` returns when `PyDateTime::new` fails (instant
outside Python's year range 1..9999).  No claim exercises this branch. -/
def chronoIsoFallback (t : Int) : String := "chrono-iso:" ++ toString t

/-- Success condition of `NaiveDate::from_ymd_opt` plus
`and_hms_micro_opt` for the given fields.  (chrono additionally bounds
the year to roughly ±262000 and allows a leap-second microsecond up to
1999999; Python datetimes always have `1 ≤ year ≤ 9999` and
`microsecond < 1000000`, so neither difference is observable.) -/
def chronoFieldsOk (dt : PyDT) : Prop :=
  1 ≤ dt.month ∧ dt.month ≤ 12 ∧
  1 ≤ dt.day ∧ dt.day ≤ daysInMonth dt.year dt.month ∧
  0 ≤ dt.hour ∧ dt.hour < 24 ∧
  0 ≤ dt.minute ∧ dt.minute < 60 ∧
  0 ≤ dt.second ∧ dt.second < 60 ∧
  0 ≤ dt.micro ∧ dt.micro < 1000000

instance (dt : PyDT) : Decidable (chronoFieldsOk dt) := by
  unfold chronoFieldsOk; infer_instance

theorem validDT_chronoFieldsOk {dt : PyDT} (h : validDT dt) : chronoFieldsOk dt := by
  unfold validDT at h; unfold chronoFieldsOk; tauto

/-- `py_datetime_to_value` (src/value.rs:133-183): a naive datetime's
wall-clock fields are read directly as UTC; an aware datetime is shifted
by subtracting its UTC offset from the wall-clock fields. -/
def py_datetime_to_value (dt : PyDT) : Value :=
  match dt.tz with
  | Option.none =>
      if chronoFieldsOk dt then .timestamp (epochMicros dt) else dtFallbackValue dt
  | some Option.none => dtFallbackValue dt
  | some (some off) =>
      if chronoFieldsOk dt then .timestamp (epochMicros dt - off * 1000000)
      else dtFallbackValue dt

/-- `py_to_value` (src/value.rs:80-128). The `i64` extraction of a Python
int raises `OverflowError` outside the 64-bit signed range. -/
def py_to_value : PyObj → Except PyErr Value
  | .none => .ok .nullV
  | .bool b => .ok (.boolean b)
  | .int i =>
      if -(2 ^ 63 : Int) ≤ i ∧ i < 2 ^ 63 then .ok (.integer i)
      else .error (.overflowError "Python int too large to convert to C long")
  | .float bits => .ok (.float bits)
  | .str s => .ok (.text s)
  | .datetime dt => .ok (py_datetime_to_value dt)
  | .vector v => .ok (.vectorV v)
  | .tuple _ => .error (.typeError "Unsupported parameter type: tuple")
  | .list xs => .ok (.json (jsonDumps (.list xs)))
  | .dict kvs => .ok (.json (jsonDumps (.dict kvs)))
  | .other t => .error (.typeError ("Unsupported parameter type: " ++ t))

/-- `value_to_py` (src/value.rs:186-225).  A timestamp decodes through
chrono's field accessors into a `datetime` with `tzinfo = timezone.utc`;
`PyDateTime::new` fails exactly when the year is outside Python's range,
in which case an ISO string is returned.  A vector decodes to a plain
list of floats; JSON decodes to its raw text. -/
def value_to_py : Value → PyObj
  | .nullV => .none
  | .boolean b => .bool b
  | .integer i => .int i
  | .float bits => .float bits
  | .text s => .str s
  | .timestamp t =>
      if 1 ≤ (civilFromDays (tsDays t)).1 ∧ (civilFromDays (tsDays t)).1 ≤ 9999 then
        .datetime (tsPyDT t)
      else .str (chronoIsoFallback t)
  | .vectorV v => .list (v.map fun b => .float (f32ToF64bits b))
  | .json s => .str s

/-- Round trip through the codec (the composition the spec calls
`decode(encode(v))`). -/
def roundTrip (v : PyObj) : Except PyErr PyObj :=
  match py_to_value v with
  | .error e => .error e
  | .ok w => .ok (value_to_py w)

/-! ## Python equality

`pyEq a b` is Python's `a == b` on the comparisons the theorems below
perform; `Option.none` marks comparisons whose Python outcome the model
does not determine (mutable-container and identity-based comparisons,
int/float numeric cross-equality) — no theorem relies on those. -/

def floatBitsNaN (b : Nat) : Bool := b / 2 ^ 52 % 2048 = 2047 ∧ b % 2 ^ 52 ≠ 0

def floatBitsZero (b : Nat) : Bool := b % 2 ^ 63 = 0

/-- IEEE-754 binary64 equality on bit patterns: NaN compares unequal to
everything (itself included), the two zeros compare equal, and any other
two patterns are equal exactly when identical. -/
def floatBitsEq (a b : Nat) : Bool :=
  if floatBitsNaN a ∨ floatBitsNaN b then false
  else if floatBitsZero a ∧ floatBitsZero b then true
  else a = b

/-- Python compares two naive datetimes field by field. -/
def naiveFieldsEq (a b : PyDT) : Bool :=
  a.year = b.year ∧ a.month = b.month ∧ a.day = b.day ∧ a.hour = b.hour ∧
  a.minute = b.minute ∧ a.second = b.second ∧ a.micro = b.micro

def pyEq : PyObj → PyObj → Option Bool
  | .none, .none => some true
  | .bool a, .bool b => some (a == b)
  | .bool a, .int n => some (decide ((if a then (1 : Int) else 0) = n))
  | .int n, .bool a => some (decide (n = (if a then (1 : Int) else 0)))
  | .int a, .int b => some (decide (a = b))
  | .int _, .float _ => Option.none
  | .float _, .int _ => Option.none
  | .bool _, .float _ => Option.none
  | .float _, .bool _ => Option.none
  | .float a, .float b => some (floatBitsEq a b)
  | .str a, .str b => some (decide (a = b))
  | .datetime a, .datetime b =>
    match a.tz, b.tz with
    | Option.none, Option.none => some (naiveFieldsEq a b)
    | Option.none, some (some _) => some false
    | some (some _), Option.none => some false
    | some (some oa), some (some ob) =>
        some (decide (epochMicros a - oa * 1000000 = epochMicros b - ob * 1000000))
    | _, _ => Option.none
  | .vector _, .vector _ => Option.none
  | .tuple _, .tuple _ => Option.none
  | .list _, .list _ => Option.none
  | .dict _, .dict _ => Option.none
  | .other _, _ => Option.none
  | _, .other _ => Option.none
  | _, _ => some false

/-! ## Parameter binding (`parse_params`, src/value.rs:229-275) -/

inductive BindParams where
  | positional (ps : List Value)
  | named (ps : List (String × Value))
  deriving DecidableEq, Repr

/-- Key normalisation: `trim_start_matches` strips every leading
occurrence of `:`, then of `@`, then of `$`. -/
def stripMarkers (k : String) : String :=
  String.mk (((k.toList.dropWhile (· = ':')).dropWhile (· = '@')).dropWhile (· = '$'))

def pyToValues : List PyObj → Except PyErr (List Value)
  | [] => .ok []
  | x :: rest =>
    match py_to_value x with
    | .error e => .error e
    | .ok v =>
      match pyToValues rest with
      | .error e => .error e
      | .ok vs => .ok (v :: vs)

def namedToValues : List (String × PyObj) → Except PyErr (List (String × Value))
  | [] => .ok []
  | (k, x) :: rest =>
    match py_to_value x with
    | .error e => .error e
    | .ok v =>
      match namedToValues rest with
      | .error e => .error e
      | .ok vs => .ok ((stripMarkers k, v) :: vs)

def parse_params : Option PyObj → Except PyErr BindParams
  | Option.none => .ok (.positional [])
  | some p =>
    match p with
    | .none => .ok (.positional [])
    | .list xs =>
      match pyToValues xs with
      | .error e => .error e
      | .ok vs => .ok (.positional vs)
    | .tuple xs =>
      match pyToValues xs with
      | .error e => .error e
      | .ok vs => .ok (.positional vs)
    | .dict kvs =>
      match namedToValues kvs with
      | .error e => .error e
      | .ok vs => .ok (.named vs)
    | _ => .error (.typeError "Parameters must be a list, tuple, or dict")

/-! ## Engine model

The stoolap engine (parser, planner, MVCC storage) is an external
collaborator reached through a fixed operation set.  It is modelled as an
oracle assigning an outcome to each operation; outcomes depend only on
the arguments, which suffices for the scenarios the claims describe.
Every attempted engine call is recorded as an event, in call order; per
the spec's visibility rules, effects applied inside a transaction become
visible only if that transaction's `commit` call occurs (an abandoned
transaction is implicitly rolled back by the engine), so the absence of a
`commit` event in a trace means no effect of the call became visible. -/

/-- Result rows of an engine query: column names plus, for each row, the
`get_value(i)` lookups (`Option.none` when the row has no value at `i`). -/
structure Rows where
  columns : List String
  rows : List (List (Option Value))
  deriving DecidableEq, Repr

structure Engine where
  /-- `stoolap::parser::Parser::parse_program` plus the
  `statements.first()` check, on the given SQL text. -/
  parseSql : String → Except String Unit
  /-- `Database::begin`. -/
  beginTx : Except String Unit
  /-- `Transaction::execute_prepared` on the (single) parsed statement,
  per parameter set. -/
  execPrepared : List Value → Except String Int
  /-- `Transaction::execute` / `execute_named` (variant carried by
  `BindParams`). -/
  execSql : String → BindParams → Except String Int
  /-- `Transaction::query` / `query_named`. -/
  querySql : String → BindParams → Except String Rows
  /-- `Transaction::commit`. -/
  commitR : Except String Unit
  /-- `Transaction::rollback`. -/
  rollbackR : Except String Unit

/-- One attempted engine call.  `evParse` is a call into the engine's SQL
parser (not a call on any transaction object); the remaining events are
calls on the database or on a transaction object. -/
inductive EngineEv where
  | evParse (sql : String)
  | evBegin
  | evExecPrepared (ps : List Value)
  | evExecSql (sql : String) (b : BindParams)
  | evQuerySql (sql : String) (b : BindParams)
  | evCommit
  | evRollback
  deriving DecidableEq, Repr

/-- The `to_py`-wrapped engine error (`src/error.rs`): the engine's
message text, unmodified, inside a `StoolapError`. -/
def engineErr (e : String) : PyErr := .stoolapError e

/-! ## Row shaping (`src/database.rs:224-293`) -/

def rowCell (v : Option Value) : PyObj :=
  match v with
  | some v => value_to_py v
  | Option.none => .none

def rowToDict (cols : List String) (r : List (Option Value)) : PyObj :=
  .dict ((List.zip cols (List.range cols.length)).map fun (c, i) =>
    (c, rowCell ((r.get? i).join)))

/-- `rows_to_dicts`: one dict per row, keyed by column name. -/
def rows_to_dicts (rs : Rows) : PyObj :=
  .list (rs.rows.map (rowToDict rs.columns))

/-- `first_row_to_dict`: the first row as a dict, or `None`. -/
def first_row_to_dict (rs : Rows) : PyObj :=
  match rs.rows with
  | [] => .none
  | r :: _ => rowToDict rs.columns r

/-- `rows_to_raw`: `{ columns: [...], rows: [[...], ...] }`. -/
def rows_to_raw (rs : Rows) : PyObj :=
  .dict [("columns", .list (rs.columns.map PyObj.str)),
         ("rows", .list (rs.rows.map fun r =>
            .list ((List.range rs.columns.length).map fun i =>
              rowCell ((r.get? i).join))))]

/-! ## Batch execution

`Database::execute_batch` (src/database.rs:136-177) and
`PreparedStatement::execute_batch` (src/statement.rs:108-136) first parse
every parameter set on the Python thread, rejecting any named (dict) set;
only then do they touch the engine: (`Database` variant only) parse the
SQL, begin one fresh transaction, run every set through
`execute_prepared` in list order accumulating the row counts, and commit
once at the end.  The first failing engine call aborts the function by
`?`-propagation: the transaction value is dropped without an explicit
rollback call and the accumulated total is discarded. -/

/-- The GIL-held parameter phase shared by all three `execute_batch`
variants: parse each entry; a named entry aborts with the usage error. -/
def parseAllPositional : List PyObj → Except PyErr (List (List Value))
  | [] => .ok []
  | item :: rest =>
    match parse_params (some item) with
    | .error e => .error e
    | .ok (.named _) =>
        .error (.typeError "execute_batch only supports positional parameters (list/tuple)")
    | .ok (.positional p) =>
      match parseAllPositional rest with
      | .error e => .error e
      | .ok ps => .ok (p :: ps)

/-- The `for params in all_params { total += tx.execute_prepared(..)? }`
loop: returns the events it emitted and either the accumulated total or
the first engine error. -/
def runBatchLoop (E : Engine) : List (List Value) → Int → List EngineEv × Except PyErr Int
  | [], total => ([], .ok total)
  | p :: rest, total =>
    match E.execPrepared p with
    | .error e => ([.evExecPrepared p], .error (engineErr e))
    | .ok n =>
      let (tr, r) := runBatchLoop E rest (total + n)
      (.evExecPrepared p :: tr, r)

/-- `Database::execute_batch`. -/
def dbExecuteBatch (E : Engine) (sql : String) (items : List PyObj) :
    List EngineEv × Except PyErr Int :=
  match parseAllPositional items with
  | .error e => ([], .error e)
  | .ok binds =>
    match E.parseSql sql with
    | .error e => ([.evParse sql], .error (engineErr e))
    | .ok _ =>
      match E.beginTx with
      | .error e => ([.evParse sql, .evBegin], .error (engineErr e))
      | .ok _ =>
        match runBatchLoop E binds 0 with
        | (tr, .error e) => (.evParse sql :: .evBegin :: tr, .error e)
        | (tr, .ok total) =>
          match E.commitR with
          | .error e => (.evParse sql :: .evBegin :: tr ++ [.evCommit], .error (engineErr e))
          | .ok _ => (.evParse sql :: .evBegin :: tr ++ [.evCommit], .ok total)

/-- `PreparedStatement::execute_batch`: identical except that the
statement comes from the cached plan, so no parse call is made. -/
def psExecuteBatch (E : Engine) (items : List PyObj) :
    List EngineEv × Except PyErr Int :=
  match parseAllPositional items with
  | .error e => ([], .error e)
  | .ok binds =>
    match E.beginTx with
    | .error e => ([.evBegin], .error (engineErr e))
    | .ok _ =>
      match runBatchLoop E binds 0 with
      | (tr, .error e) => (.evBegin :: tr, .error e)
      | (tr, .ok total) =>
        match E.commitR with
        | .error e => (.evBegin :: tr ++ [.evCommit], .error (engineErr e))
        | .ok _ => (.evBegin :: tr ++ [.evCommit], .ok total)

/-! ## Transaction handle (`src/transaction.rs`)

The handle is `Mutex<Option<ApiTransaction>>`; the model is the `Option`
(sequential executions never observe a poisoned lock, so the
`"Transaction lock poisoned"` paths are not modelled).  `some ()` is the
Active state, `Option.none` the Closed state; the engine-side transaction
object itself is opaque here (its observable behaviour lives in the
`Engine` oracle and the event trace). -/

def TxHandle : Type := Option Unit

def txClosedErr : PyErr := .stoolapError "Transaction is no longer active"

/-- `Transaction::execute`: parse the parameters (GIL), then run the
engine call under `with_tx`, which fails on a Closed handle before any
engine call. -/
def txExecute (E : Engine) (h : TxHandle) (sql : String) (params : Option PyObj) :
    List EngineEv × Except PyErr Int :=
  match parse_params params with
  | .error e => ([], .error e)
  | .ok bind =>
    match h with
    | Option.none => ([], .error txClosedErr)
    | some _ =>
      match E.execSql sql bind with
      | .error e => ([.evExecSql sql bind], .error (engineErr e))
      | .ok n => ([.evExecSql sql bind], .ok n)

/-- The shared `with_tx(|tx| tx.query(..))` part of
`Transaction::query/query_one/query_raw`. -/
def txQueryRows (E : Engine) (h : TxHandle) (sql : String) (params : Option PyObj) :
    List EngineEv × Except PyErr Rows :=
  match parse_params params with
  | .error e => ([], .error e)
  | .ok bind =>
    match h with
    | Option.none => ([], .error txClosedErr)
    | some _ =>
      match E.querySql sql bind with
      | .error e => ([.evQuerySql sql bind], .error (engineErr e))
      | .ok rs => ([.evQuerySql sql bind], .ok rs)

def txQuery (E : Engine) (h : TxHandle) (sql : String) (params : Option PyObj) :
    List EngineEv × Except PyErr PyObj :=
  match txQueryRows E h sql params with
  | (tr, .error e) => (tr, .error e)
  | (tr, .ok rs) => (tr, .ok (rows_to_dicts rs))

def txQueryOne (E : Engine) (h : TxHandle) (sql : String) (params : Option PyObj) :
    List EngineEv × Except PyErr PyObj :=
  match txQueryRows E h sql params with
  | (tr, .error e) => (tr, .error e)
  | (tr, .ok rs) => (tr, .ok (first_row_to_dict rs))

def txQueryRaw (E : Engine) (h : TxHandle) (sql : String) (params : Option PyObj) :
    List EngineEv × Except PyErr PyObj :=
  match txQueryRows E h sql params with
  | (tr, .error e) => (tr, .error e)
  | (tr, .ok rs) => (tr, .ok (rows_to_raw rs))

/-- `Transaction::execute_batch` (src/transaction.rs:141-182): parameter
phase, then the SQL is parsed, then `with_tx` runs the loop against the
caller's existing transaction — no begin, no commit.  On a Closed handle
the engine parser has already run, but no call is made on the
transaction. -/
def txExecuteBatch (E : Engine) (h : TxHandle) (sql : String) (items : List PyObj) :
    List EngineEv × Except PyErr Int :=
  match parseAllPositional items with
  | .error e => ([], .error e)
  | .ok binds =>
    match E.parseSql sql with
    | .error e => ([.evParse sql], .error (engineErr e))
    | .ok _ =>
      match h with
      | Option.none => ([.evParse sql], .error txClosedErr)
      | some _ =>
        match runBatchLoop E binds 0 with
        | (tr, r) => (.evParse sql :: tr, r)

/-- `Transaction::commit` (src/transaction.rs:185-196): `guard.take()`
removes the transaction from the handle before `tx.commit()` runs, so the
handle is Closed afterwards whatever the engine answers. -/
def txCommit (E : Engine) (h : TxHandle) :
    TxHandle × List EngineEv × Except PyErr Unit :=
  match h with
  | Option.none => (Option.none, [], .error txClosedErr)
  | some _ =>
    match E.commitR with
    | .error e => (Option.none, [.evCommit], .error (engineErr e))
    | .ok _ => (Option.none, [.evCommit], .ok ())

/-- `Transaction::rollback` (src/transaction.rs:199-210), same shape. -/
def txRollback (E : Engine) (h : TxHandle) :
    TxHandle × List EngineEv × Except PyErr Unit :=
  match h with
  | Option.none => (Option.none, [], .error txClosedErr)
  | some _ =>
    match E.rollbackR with
    | .error e => (Option.none, [.evRollback], .error (engineErr e))
    | .ok _ => (Option.none, [.evRollback], .ok ())

/-- `Transaction::__exit__` (src/transaction.rs:218-245).
`excInFlight` is whether `exc_type` is `Some`.  If the handle still holds
a transaction: on exception, roll back and discard the rollback's result
(`let _ = tx.rollback()`); on clean exit, commit and propagate a commit
error via `?`.  Either way the guard has been `take`n.  The method
returns `false` (never suppressing an exception) unless a commit error is
propagated. -/
def txExit (E : Engine) (h : TxHandle) (excInFlight : Bool) :
    TxHandle × List EngineEv × Except PyErr Bool :=
  match h with
  | Option.none => (Option.none, [], .ok false)
  | some _ =>
    if excInFlight then
      (Option.none, [.evRollback], .ok false)
    else
      match E.commitR with
      | .error e => (Option.none, [.evCommit], .error (engineErr e))
      | .ok _ => (Option.none, [.evCommit], .ok false)

/-! ## Statement splitter (`split_sql_statements`, src/database.rs:296-367)

The Rust loop walks the character array with an index, consuming one or
two characters per iteration; the model recurses over the character list,
carrying the four state flags, the current fragment, the emitted
statements, and the previously consumed character (the loop reads
`chars[i - 1]` for the backslash check). -/

def sqChar : Char := Char.ofNat 39

def dqChar : Char := Char.ofNat 34

def bsChar : Char := Char.ofNat 92

/-- Whether the character after `--` lets a line comment start: end of
input, space, tab, newline, carriage return (the code substitutes NUL
for end-of-input, so a literal NUL character also qualifies). -/
def lineWs (rest2 : List Char) : Bool :=
  match rest2 with
  | [] => true
  | c2 :: _ => c2 = Char.ofNat 0 ∨ c2 = ' ' ∨ c2 = '\t' ∨ c2 = '\n' ∨ c2 = '\r'

def splitFinish (cur : List Char) (acc : List (List Char)) : List (List Char) :=
  if cur = [] then acc else acc ++ [cur]

/-- The splitter loop.  One recursive call consumes exactly one
character; the loop's `i += 2` advances (after `--`, `/*`, `*/`) are
encoded by the `skip` flag, which swallows the second character of the
token on the next call.  `prev` is the previously consumed character
(`chars[i - 1]`); lookahead (`chars[i + 1]`, `chars[i + 2]`) is done with
`head?`/`tail` without consuming.  Branch order mirrors the source: line
comment state, line-comment start, block comment state (and `*/`), block
comment start (`/*`), then quote toggling (backslash-escaped quotes do
not toggle; the double-quote check is the `else if` of the single-quote
check) and the delimiter test. -/
def splitGo (skip : Bool) (prev : Option Char) (inS inD inL inB : Bool) (cur : List Char)
    (acc : List (List Char)) : List Char → List (List Char)
  | [] => splitFinish cur acc
  | c :: rest =>
    if skip then splitGo false (some c) inS inD inL inB cur acc rest
    else if inL then
      if c = '\n' then splitGo false (some c) inS inD false inB (cur ++ [c]) acc rest
      else splitGo false (some c) inS inD true inB cur acc rest
    else if !inS && !inD && !inB && c = '-' && rest.head? = some '-' && lineWs rest.tail then
      splitGo true (some c) inS inD true inB cur acc rest
    else if inB then
      if c = '*' && rest.head? = some '/' then
        splitGo true (some c) inS inD inL false cur acc rest
      else splitGo false (some c) inS inD inL inB cur acc rest
    else if !inS && !inD && c = '/' && rest.head? = some '*' then
      splitGo true (some c) inS inD inL true cur acc rest
    else
      let pnb := match prev with | Option.none => true | some p => !(p = bsChar)
      let inS' := if c = sqChar && pnb then !inS else inS
      let inD' := if !(c = sqChar && pnb) && c = dqChar && pnb then !inD else inD
      if c = ';' && !inS' && !inD' then
        splitGo false (some c) inS' inD' inL inB [] (acc ++ [cur]) rest
      else splitGo false (some c) inS' inD' inL inB (cur ++ [c]) acc rest
termination_by structural l => l

def split_sql_statements (input : String) : List String :=
  (splitGo false Option.none false false false false [] [] input.toList).map String.mk

/-! ## DSN translation (`translate_path`, src/database.rs:203-212) -/

/-- ASCII subset of Rust's `str::trim` whitespace set (`char::is_whitespace`
also covers non-ASCII Unicode spaces, which no claim exercises). -/
def rustIsWs (c : Char) : Bool :=
  c = ' ' ∨ c = '\t' ∨ c = '\n' ∨ c = '\r' ∨ c = Char.ofNat 11 ∨ c = Char.ofNat 12

def rustTrim (s : String) : String :=
  String.mk (((s.toList.dropWhile rustIsWs).reverse.dropWhile rustIsWs).reverse)

def strStartsWith (s p : String) : Bool := p.toList.isPrefixOf s.toList

def translate_path (path : String) : String :=
  let trimmed := rustTrim path
  if trimmed = "" ∨ trimmed = ":memory:" then "memory://"
  else if strStartsWith trimmed "memory://" ∨ strStartsWith trimmed "file://" then trimmed
  else "file://" ++ trimmed

/-- An engine whose every operation succeeds (rows affected 1, one query
row); used to instantiate witnesses. -/
def okEngine : Engine where
  parseSql := fun _ => .ok ()
  beginTx := .ok ()
  execPrepared := fun _ => .ok 1
  execSql := fun _ _ => .ok 1
  querySql := fun _ _ => .ok ⟨["a"], [[some (.integer 7)]]⟩
  commitR := .ok ()
  rollbackR := .ok ()

/-- `okEngine` with failing commit and rollback. -/
def failTerminalEngine : Engine :=
  { okEngine with commitR := .error "commit failed", rollbackR := .error "rollback failed" }

/-- `okEngine` with the second parameter set failing (a constraint
violation on `[2]`). -/
def failSecondEngine : Engine :=
  { okEngine with execPrepared := fun p =>
      if p = [Value.integer 2] then .error "constraint violation" else .ok 1 }

/-- Three singleton positional parameter sets `[[1], [2], [3]]`. -/
def items3 : List PyObj := [.list [.int 1], .list [.int 2], .list [.int 3]]

deriving instance DecidableEq for Except

/-! ## Helper lemmas for the batch loop and the parameter phase -/

theorem runBatchLoop_all_ok (E : Engine) (eff : List Value → Int) :
    ∀ (binds : List (List Value)) (t0 : Int),
      (∀ p ∈ binds, E.execPrepared p = .ok (eff p)) →
      runBatchLoop E binds t0 =
        (binds.map EngineEv.evExecPrepared, .ok (t0 + (binds.map eff).sum)) := by
  intro binds
  induction binds with
  | nil => intro t0 _; simp [runBatchLoop]
  | cons p rest ih =>
    intro t0 h
    have hp : E.execPrepared p = .ok (eff p) := h p (List.mem_cons_self p rest)
    have ihh := ih (t0 + eff p) (fun q hq => h q (List.mem_cons_of_mem p hq))
    have ihh' : runBatchLoop E rest (t0 + eff p) =
        (List.map EngineEv.evExecPrepared rest,
         Except.ok (t0 + ((List.map eff rest).sum + eff p))) := by
      rw [ihh]; congr 2; ring
    simp [runBatchLoop, hp, ihh', List.sum_cons]
    ring

theorem runBatchLoop_first_err (E : Engine) (eff : List Value → Int) :
    ∀ (pre : List (List Value)) (bad : List Value) (post : List (List Value))
      (e : String) (t0 : Int),
      (∀ p ∈ pre, E.execPrepared p = .ok (eff p)) →
      E.execPrepared bad = .error e →
      runBatchLoop E (pre ++ bad :: post) t0 =
        ((pre ++ [bad]).map EngineEv.evExecPrepared, .error (engineErr e)) := by
  intro pre
  induction pre with
  | nil =>
    intro bad post e t0 _ hbad
    simp [runBatchLoop, hbad]
  | cons p rest ih =>
    intro bad post e t0 h hbad
    have hp : E.execPrepared p = .ok (eff p) := h p (List.mem_cons_self p rest)
    have ihh := ih bad post e (t0 + eff p) (fun q hq => h q (List.mem_cons_of_mem p hq)) hbad
    simp [List.cons_append, runBatchLoop, hp]
    rw [ihh]
    simp

theorem parse_params_dict_named (kvs : List (String × PyObj)) (r : BindParams)
    (h : parse_params (some (.dict kvs)) = .ok r) : ∃ ps, r = .named ps := by
  simp only [parse_params] at h
  cases hnv : namedToValues kvs with
  | error e => rw [hnv] at h; exact absurd h (by simp)
  | ok vs => rw [hnv] at h; exact ⟨vs, by injection h with h; exact h.symm⟩

/-- If every entry of a batch parameter list parses and at least one is a
dict, the parameter phase aborts with the positional-only usage error. -/
theorem parseAllPositional_named (items : List PyObj)
    (h1 : ∀ item ∈ items, ∃ r, parse_params (some item) = .ok r)
    (h2 : ∃ kvs, PyObj.dict kvs ∈ items) :
    parseAllPositional items =
      .error (.typeError "execute_batch only supports positional parameters (list/tuple)") := by
  induction items with
  | nil => obtain ⟨kvs, hk⟩ := h2; exact absurd hk (by simp)
  | cons x rest ih =>
    obtain ⟨r, hr⟩ := h1 x (List.mem_cons_self x rest)
    cases r with
    | named ps => simp [parseAllPositional, hr]
    | positional ps =>
      have hxnd : ∀ kvs, x ≠ PyObj.dict kvs := by
        intro kvs hx
        obtain ⟨qs, hq⟩ := parse_params_dict_named kvs (.positional ps) (hx ▸ hr)
        exact absurd hq (by simp)
      obtain ⟨kvs, hk⟩ := h2
      have hkrest : PyObj.dict kvs ∈ rest := by
        cases List.mem_cons.mp hk with
        | inl h => exact absurd h.symm (hxnd kvs)
        | inr h => exact h
      have := ih (fun item hi => h1 item (List.mem_cons_of_mem x hi)) ⟨kvs, hkrest⟩
      simp [parseAllPositional, hr, this]

/-! ## Claim theorems -/

set_option maxHeartbeats 1000000 in
/-- C7: the statement splitter splits only on semicolons outside quotes
and comments: `"SELECT 1; -- c ; \n SELECT 2;"` yields exactly
`["SELECT 1", " \n SELECT 2"]` (the semicolon inside the line comment is
not a delimiter), and an `INSERT` whose single-quoted literal contains a
semicolon stays one statement. -/
theorem C7_split_statements :
    split_sql_statements "SELECT 1; -- c ; \n SELECT 2;" = ["SELECT 1", " \n SELECT 2"]
    ∧ split_sql_statements
        ("INSERT INTO t VALUES (" ++ String.mk [sqChar] ++ "a;b" ++ String.mk [sqChar] ++ ")")
      = ["INSERT INTO t VALUES (" ++ String.mk [sqChar] ++ "a;b" ++ String.mk [sqChar] ++ ")"] := by
  exact ⟨by decide, by decide⟩

/-- C8 counterexample: `"db://x"` carries a `scheme://` prefix yet is not
passed through unchanged — `translate_path` recognises only the
`memory://` and `file://` prefixes and wraps everything else as a file
path. -/
theorem C8_counterexample :
    translate_path "db://x" = "file://db://x" ∧ translate_path "db://x" ≠ "db://x" := by
  exact ⟨rfl, by decide⟩

theorem startsWith_ne_empty_memory (t : String)
    (h : strStartsWith t "memory://" = true ∨ strStartsWith t "file://" = true) :
    ¬(t = "" ∨ t = ":memory:") := by
  rintro (rfl | rfl) <;> revert h <;> decide

/-- C8 (amended): an empty or all-whitespace string and `":memory:"`
translate to the in-memory DSN `"memory://"`; a string whose trimmed form
already starts with `"memory://"` or `"file://"` is passed through
(trimmed); every other string `p` becomes `"file://" ++ trim p` — in
particular a foreign `scheme://` prefix is *not* passed through. -/
theorem C8_translate_path (p : String) :
    (rustTrim p = "" ∨ rustTrim p = ":memory:" → translate_path p = "memory://")
  ∧ (strStartsWith (rustTrim p) "memory://" = true ∨ strStartsWith (rustTrim p) "file://" = true →
      translate_path p = rustTrim p)
  ∧ (¬(rustTrim p = "" ∨ rustTrim p = ":memory:") →
     ¬(strStartsWith (rustTrim p) "memory://" = true ∨ strStartsWith (rustTrim p) "file://" = true) →
      translate_path p = "file://" ++ rustTrim p) := by
  refine ⟨fun h => ?_, fun h => ?_, fun h1 h2 => ?_⟩
  · simp only [translate_path, if_pos h]
  · have hne := startsWith_ne_empty_memory (rustTrim p) h
    simp only [translate_path, if_neg hne]
    have h' : strStartsWith (rustTrim p) "memory://" = true ∨
        strStartsWith (rustTrim p) "file://" = true := h
    simp only [if_pos h']
  · simp only [translate_path, if_neg h1, if_neg h2]

/-- C8 witness: the three branches at concrete inputs.  `"  "` is
all-whitespace, `"memory://"` carries a recognised prefix, `"./mydb"` is
a bare path. -/
theorem C8_translate_path_witness :
    translate_path "  " = "memory://"
    ∧ translate_path "memory://" = "memory://"
    ∧ translate_path "./mydb" = "file://./mydb" := by
  refine ⟨(C8_translate_path "  ").1 ?_, ?_, ?_⟩
  · left; decide
  · have := (C8_translate_path "memory://").2.1 (by left; decide)
    rw [this]; decide
  · have := (C8_translate_path "./mydb").2.2 (by decide) (by decide)
    rw [this]; decide

/-- C10: if the transaction was already terminated inside the scope body,
`__exit__` makes no engine call at all, raises no error, and returns
`false` whether or not an exception is in flight. -/
theorem C10_exit_after_manual_close (E : Engine) (b : Bool) :
    txExit E Option.none b = (Option.none, [], .ok false) := rfl

/-- C9: `commit()` and `rollback()` `take()` the transaction out of the
handle before calling the engine, so the handle is Closed afterwards even
when the engine reports an error; the failed terminal call cannot be
retried and every subsequent call fails with the usage error. -/
theorem C9_terminal_takes_handle (E : Engine) (u : Unit) (e : String) :
    (txCommit E (some u)).1 = Option.none
  ∧ (txRollback E (some u)).1 = Option.none
  ∧ (E.commitR = .error e →
      txCommit E (some u) = (Option.none, [.evCommit], .error (engineErr e)))
  ∧ (E.rollbackR = .error e →
      txRollback E (some u) = (Option.none, [.evRollback], .error (engineErr e)))
  ∧ txCommit E Option.none = (Option.none, [], .error txClosedErr)
  ∧ txRollback E Option.none = (Option.none, [], .error txClosedErr) := by
  refine ⟨?_, ?_, fun h => ?_, fun h => ?_, rfl, rfl⟩
  · simp only [txCommit]; cases E.commitR <;> rfl
  · simp only [txRollback]; cases E.rollbackR <;> rfl
  · simp [txCommit, h]
  · simp [txRollback, h]

/-- C9 witness at the failing-terminal engine. -/
theorem C9_terminal_takes_handle_witness :
    txCommit failTerminalEngine (some ()) =
      (Option.none, [.evCommit], .error (engineErr "commit failed"))
    ∧ txRollback failTerminalEngine (some ()) =
      (Option.none, [.evRollback], .error (engineErr "rollback failed")) := by
  have h := C9_terminal_takes_handle failTerminalEngine () "commit failed"
  have h2 := C9_terminal_takes_handle failTerminalEngine () "rollback failed"
  exact ⟨h.2.2.1 rfl, h2.2.2.2.1 rfl⟩

/-- C4: with the transaction still Active at scope exit, `__exit__`
commits on clean exit and propagates a commit failure; on abnormal exit
it rolls back, discards the rollback's result, and returns `false` so the
original exception is re-raised and never replaced. -/
theorem C4_exit_active (E : Engine) (u : Unit) (e : String) :
    (E.commitR = .ok () → txExit E (some u) false = (Option.none, [.evCommit], .ok false))
  ∧ (E.commitR = .error e →
      txExit E (some u) false = (Option.none, [.evCommit], .error (engineErr e)))
  ∧ txExit E (some u) true = (Option.none, [.evRollback], .ok false) := by
  refine ⟨fun h => ?_, fun h => ?_, rfl⟩
  · simp [txExit, h]
  · simp [txExit, h]

/-- C4 witness: clean exit commits under `okEngine`; a failing commit is
propagated; abnormal exit under a failing rollback still returns
`Ok false`. -/
theorem C4_exit_active_witness :
    txExit okEngine (some ()) false = (Option.none, [.evCommit], .ok false)
    ∧ txExit failTerminalEngine (some ()) false =
        (Option.none, [.evCommit], .error (engineErr "commit failed"))
    ∧ txExit failTerminalEngine (some ()) true = (Option.none, [.evRollback], .ok false) := by
  exact ⟨(C4_exit_active okEngine () "x").1 rfl,
         (C4_exit_active failTerminalEngine () "commit failed").2.1 rfl,
         (C4_exit_active failTerminalEngine () "x").2.2⟩

/-- C2: the owned-transaction batch variants (`Database.execute_batch`,
`PreparedStatement.execute_batch`): when every parameter set succeeds the
call opens one fresh transaction, applies the statement to every set in
list order, commits exactly once at the end, and returns the summed row
counts; when the set `bad` (preceded by `pre`) fails, the call returns
the engine's error, no commit and no rollback call occur (the transaction
value is dropped — the engine's implicit rollback), and the accumulated
total is discarded, so the effects of the earlier sets never become
visible. -/
theorem C2_owned_batch (E : Engine) (sql : String) (items : List PyObj)
    (binds : List (List Value)) (eff : List Value → Int)
    (pre post : List (List Value)) (bad : List Value) (e : String) :
    (parseAllPositional items = .ok binds →
     E.parseSql sql = .ok () →
     E.beginTx = .ok () →
     E.commitR = .ok () →
     (∀ p ∈ binds, E.execPrepared p = .ok (eff p)) →
     dbExecuteBatch E sql items =
       (.evParse sql :: .evBegin :: binds.map EngineEv.evExecPrepared ++ [.evCommit],
        .ok ((binds.map eff).sum)) ∧
     psExecuteBatch E items =
       (.evBegin :: binds.map EngineEv.evExecPrepared ++ [.evCommit],
        .ok ((binds.map eff).sum)))
  ∧ (parseAllPositional items = .ok (pre ++ bad :: post) →
     E.parseSql sql = .ok () →
     E.beginTx = .ok () →
     (∀ p ∈ pre, E.execPrepared p = .ok (eff p)) →
     E.execPrepared bad = .error e →
     dbExecuteBatch E sql items =
       (.evParse sql :: .evBegin :: (pre ++ [bad]).map EngineEv.evExecPrepared,
        .error (engineErr e)) ∧
     psExecuteBatch E items =
       (.evBegin :: (pre ++ [bad]).map EngineEv.evExecPrepared,
        .error (engineErr e)) ∧
     EngineEv.evCommit ∉ (EngineEv.evParse sql :: EngineEv.evBegin ::
        (pre ++ [bad]).map EngineEv.evExecPrepared) ∧
     EngineEv.evRollback ∉ (EngineEv.evParse sql :: EngineEv.evBegin ::
        (pre ++ [bad]).map EngineEv.evExecPrepared)) := by
  constructor
  · intro hb hp hbeg hcom hex
    have hloop := runBatchLoop_all_ok E eff binds 0 hex
    constructor
    · simp only [dbExecuteBatch, hb, hp, hbeg, hloop, hcom]
      simp
    · simp only [psExecuteBatch, hb, hbeg, hloop, hcom]
      simp
  · intro hb hp hbeg hpre hbad
    have hloop := runBatchLoop_first_err E eff pre bad post e 0 hpre hbad
    refine ⟨?_, ?_, ?_, ?_⟩
    · simp only [dbExecuteBatch, hb, hp, hbeg, hloop]
    · simp only [psExecuteBatch, hb, hbeg, hloop]
    · simp [List.mem_map]
    · simp [List.mem_map]

/-- C2 witness: three singleton inserts commit exactly 3 rows under
`okEngine`; with the second set failing, the error is returned and the
trace holds no commit. -/
theorem C2_owned_batch_witness :
    dbExecuteBatch okEngine "INSERT INTO t VALUES ($1)" items3 =
      ([.evParse "INSERT INTO t VALUES ($1)", .evBegin,
        .evExecPrepared [Value.integer 1], .evExecPrepared [Value.integer 2],
        .evExecPrepared [Value.integer 3], .evCommit], .ok 3)
  ∧ psExecuteBatch okEngine items3 =
      ([.evBegin, .evExecPrepared [Value.integer 1], .evExecPrepared [Value.integer 2],
        .evExecPrepared [Value.integer 3], .evCommit], .ok 3)
  ∧ dbExecuteBatch failSecondEngine "INSERT INTO t VALUES ($1)" items3 =
      ([.evParse "INSERT INTO t VALUES ($1)", .evBegin,
        .evExecPrepared [Value.integer 1], .evExecPrepared [Value.integer 2]],
       .error (engineErr "constraint violation")) := by
  have hok := (C2_owned_batch okEngine "INSERT INTO t VALUES ($1)" items3
    [[Value.integer 1], [Value.integer 2], [Value.integer 3]] (fun _ => 1)
    [] [] [] "").1 (by decide) rfl rfl rfl (by decide)
  have herr := (C2_owned_batch failSecondEngine "INSERT INTO t VALUES ($1)" items3
    [] (fun _ => 1) [[Value.integer 1]] [[Value.integer 3]] [Value.integer 2]
    "constraint violation").2 (by decide) rfl rfl (by decide) (by decide)
  refine ⟨?_, ?_, ?_⟩
  · have := hok.1; simpa using this
  · have := hok.2; simpa using this
  · have := herr.1; simpa using this

/-- C3: a Closed transaction handle rejects every data operation and
every further `commit`/`rollback` with the `"Transaction is no longer
active"` usage error, and no call is made on the (absent) transaction
object: the traces contain no transaction events — only
`Transaction::execute_batch` has already invoked the engine's SQL parser
(`evParse`), which is not a call on the handle. -/
theorem C3_closed_handle (E : Engine) (sql : String) (params : Option PyObj)
    (items : List PyObj) (bind : BindParams) (binds : List (List Value)) :
    (parse_params params = .ok bind →
      txExecute E Option.none sql params = ([], .error txClosedErr)
      ∧ txQuery E Option.none sql params = ([], .error txClosedErr)
      ∧ txQueryOne E Option.none sql params = ([], .error txClosedErr)
      ∧ txQueryRaw E Option.none sql params = ([], .error txClosedErr))
  ∧ (parseAllPositional items = .ok binds → E.parseSql sql = .ok () →
      txExecuteBatch E Option.none sql items = ([.evParse sql], .error txClosedErr))
  ∧ txCommit E Option.none = (Option.none, [], .error txClosedErr)
  ∧ txRollback E Option.none = (Option.none, [], .error txClosedErr) := by
  refine ⟨fun h => ⟨?_, ?_, ?_, ?_⟩, fun hb hp => ?_, rfl, rfl⟩
  · simp [txExecute, h]
  · simp [txQuery, txQueryRows, h]
  · simp [txQueryOne, txQueryRows, h]
  · simp [txQueryRaw, txQueryRows, h]
  · simp [txExecuteBatch, hb, hp]

/-- C3 witness at concrete valid arguments. -/
theorem C3_closed_handle_witness :
    txExecute okEngine Option.none "SELECT 1" (some (.list [.int 5])) =
      ([], .error txClosedErr)
    ∧ txExecuteBatch okEngine Option.none "SELECT 1" [.list [.int 5]] =
      ([.evParse "SELECT 1"], .error txClosedErr) := by
  have h := C3_closed_handle okEngine "SELECT 1" (some (.list [.int 5]))
    [.list [.int 5]] (.positional [Value.integer 5]) [[Value.integer 5]]
  exact ⟨(h.1 (by decide)).1, h.2.1 (by decide) rfl⟩

/-- C5: every `execute_batch` variant (Database, PreparedStatement,
Transaction) whose parameter-set list contains a mapping entry — all
entries parseable, so the mapping is the only defect — fails with the
positional-only usage error, and the trace is empty: the rejection comes
before any engine call (no SQL parsing, no begin, no execution). -/
theorem C5_named_batch_rejected (E : Engine) (sql : String) (items : List PyObj)
    (h : TxHandle) :
    (∀ item ∈ items, ∃ r, parse_params (some item) = .ok r) →
    (∃ kvs, PyObj.dict kvs ∈ items) →
    dbExecuteBatch E sql items =
      ([], .error (.typeError "execute_batch only supports positional parameters (list/tuple)"))
    ∧ psExecuteBatch E items =
      ([], .error (.typeError "execute_batch only supports positional parameters (list/tuple)"))
    ∧ txExecuteBatch E h sql items =
      ([], .error (.typeError "execute_batch only supports positional parameters (list/tuple)")) := by
  intro h1 h2
  have hpa := parseAllPositional_named items h1 h2
  exact ⟨by simp [dbExecuteBatch, hpa], by simp [psExecuteBatch, hpa],
         by simp [txExecuteBatch, hpa]⟩

/-- C5 witness: one positional set followed by one named set. -/
theorem C5_named_batch_rejected_witness :
    dbExecuteBatch okEngine "INSERT INTO t VALUES ($1)"
        [.list [.int 1], .dict [("id", .int 2)]] =
      ([], .error (.typeError "execute_batch only supports positional parameters (list/tuple)")) := by
  have h := C5_named_batch_rejected okEngine "INSERT INTO t VALUES ($1)"
    [.list [.int 1], .dict [("id", .int 2)]] Option.none
    (by
      intro item hi
      simp only [List.mem_cons, List.mem_singleton] at hi
      rcases hi with rfl | rfl | h
      · exact ⟨.positional [Value.integer 1], by decide⟩
      · exact ⟨.named [("id", Value.integer 2)], by decide⟩
      · cases h)
    ⟨[("id", .int 2)], by simp⟩
  exact h.1

theorem tsPyDT_tz (t : Int) : (tsPyDT t).tz = some (some 0) := rfl

/-- C6: a naive datetime's wall-clock fields are read directly as UTC
(fields (2024-01-01 12:00:00) encode to epoch microseconds
1704110400000000, the instant 2024-01-01T12:00:00Z); an aware datetime is
shifted by its UTC offset ((2024-01-01 12:00:00, +05:00 = 18000 s)
encodes to 1704092400000000, the instant 2024-01-01T07:00:00Z — the two
final conjuncts name those instants by their UTC fields); microseconds
are preserved in both cases (the encoded instant's microsecond remainder
is the datetime's `microsecond` field). -/
theorem C6_timestamp_encoding (dt : PyDT) (off : Int) :
    (validDT dt → dt.tz = Option.none →
      py_to_value (.datetime dt) = .ok (.timestamp (epochMicros dt))
      ∧ epochMicros dt % 1000000 = dt.micro)
  ∧ (validDT dt → dt.tz = some (some off) →
      py_to_value (.datetime dt) = .ok (.timestamp (epochMicros dt - off * 1000000))
      ∧ (epochMicros dt - off * 1000000) % 1000000 = dt.micro)
  ∧ py_to_value (.datetime ⟨2024, 1, 1, 12, 0, 0, 0, Option.none⟩) =
      .ok (.timestamp 1704110400000000)
  ∧ py_to_value (.datetime ⟨2024, 1, 1, 12, 0, 0, 0, some (some 18000)⟩) =
      .ok (.timestamp 1704092400000000)
  ∧ tsPyDT 1704110400000000 = ⟨2024, 1, 1, 12, 0, 0, 0, some (some 0)⟩
  ∧ tsPyDT 1704092400000000 = ⟨2024, 1, 1, 7, 0, 0, 0, some (some 0)⟩ := by
  refine ⟨fun h htz => ⟨?_, ?_⟩, fun h htz => ⟨?_, ?_⟩, by decide, by decide, by decide, by decide⟩
  · simp [py_to_value, py_datetime_to_value, htz, if_pos (validDT_chronoFieldsOk h)]
  · unfold validDT at h
    unfold epochMicros
    omega
  · simp [py_to_value, py_datetime_to_value, htz, if_pos (validDT_chronoFieldsOk h)]
  · unfold validDT at h
    unfold epochMicros
    omega

/-- C6 witness: 2024-03-15 06:30:45.123456 naive encodes to epoch
microseconds 1710484245123456 with the microseconds preserved; the same
fields at offset +01:00 (3600 s) encode one hour earlier. -/
theorem C6_timestamp_encoding_witness :
    py_to_value (.datetime ⟨2024, 3, 15, 6, 30, 45, 123456, Option.none⟩) =
      .ok (.timestamp 1710484245123456)
    ∧ (1710484245123456 : Int) % 1000000 = 123456
    ∧ py_to_value (.datetime ⟨2024, 3, 15, 6, 30, 45, 123456, some (some 3600)⟩) =
      .ok (.timestamp 1710480645123456) := by
  have h := C6_timestamp_encoding ⟨2024, 3, 15, 6, 30, 45, 123456, Option.none⟩ 0
  have h2 := C6_timestamp_encoding ⟨2024, 3, 15, 6, 30, 45, 123456, some (some 3600)⟩ 3600
  have ha := (h.1 (by decide) rfl).1
  have hc := (h2.2.1 (by decide) rfl).1
  refine ⟨?_, by decide, ?_⟩
  · rw [ha]; decide
  · rw [hc]; decide

/-- C1 counterexample: the naive datetime 2024-01-01 12:00:00 round-trips
to the timezone-aware datetime 2024-01-01 12:00:00+00:00, and Python's
`==` between that aware result and the naive original is `False` — so
`value_to_py (py_to_value v) == v` fails for naive timestamps as the
claim states it. -/
theorem C1_roundtrip_counterexample :
    roundTrip (.datetime ⟨2024, 1, 1, 12, 0, 0, 0, Option.none⟩) =
      .ok (.datetime ⟨2024, 1, 1, 12, 0, 0, 0, some (some 0)⟩)
    ∧ pyEq (.datetime ⟨2024, 1, 1, 12, 0, 0, 0, some (some 0)⟩)
        (.datetime ⟨2024, 1, 1, 12, 0, 0, 0, Option.none⟩) = some false := by
  exact ⟨rfl, by decide⟩

/-- C1 (amended): decoding the encoded value reproduces `v` under
Python's `==` for booleans, 64-bit-range integers, non-NaN floats
(bit-identical round trip for every float, NaN included), text strings,
and timezone-aware datetimes with valid fields whose UTC instant falls in
Python's year range (compared as instants, microseconds exact); a naive
datetime instead decodes to the timezone-aware UTC datetime with the same
wall-clock fields, which Python's `==` does not equate with the naive
original. -/
theorem C1_roundtrip (b : Bool) (i : Int) (bits : Nat) (s : String) (dt : PyDT) (off : Int) :
    (roundTrip (.bool b) = .ok (.bool b) ∧ pyEq (.bool b) (.bool b) = some true)
  ∧ (-(2 ^ 63 : Int) ≤ i → i < 2 ^ 63 →
      roundTrip (.int i) = .ok (.int i) ∧ pyEq (.int i) (.int i) = some true)
  ∧ roundTrip (.float bits) = .ok (.float bits)
  ∧ (floatBitsNaN bits = false → pyEq (.float bits) (.float bits) = some true)
  ∧ (roundTrip (.str s) = .ok (.str s) ∧ pyEq (.str s) (.str s) = some true)
  ∧ (validDT dt → dt.tz = some (some off) →
      1 ≤ (civilFromDays (tsDays (epochMicros dt - off * 1000000))).1 →
      (civilFromDays (tsDays (epochMicros dt - off * 1000000))).1 ≤ 9999 →
      roundTrip (.datetime dt) = .ok (.datetime (tsPyDT (epochMicros dt - off * 1000000)))
      ∧ pyEq (.datetime (tsPyDT (epochMicros dt - off * 1000000))) (.datetime dt) = some true) := by
  refine ⟨⟨rfl, by simp [pyEq]⟩, fun h1 h2 => ⟨?_, by simp [pyEq]⟩, rfl, fun hn => ?_,
    ⟨rfl, by simp [pyEq]⟩, fun hv htz hy1 hy2 => ⟨?_, ?_⟩⟩
  · have h1' : (-9223372036854775808 : Int) ≤ i := by omega
    have h2' : i < 9223372036854775808 := by omega
    simp [roundTrip, py_to_value, value_to_py, h1', h2']
  · simp [pyEq, floatBitsEq, hn]
  · simp only [roundTrip, py_to_value, py_datetime_to_value, htz,
      if_pos (validDT_chronoFieldsOk hv), value_to_py, if_pos (And.intro hy1 hy2)]
  · simp only [pyEq, tsPyDT_tz, htz]
    rw [epochMicros_tsPyDT]
    simp

/-- C1 witness: concrete instances of every amended round-trip case; the
float bits are those of `1.0`, the aware datetime is
2024-01-01 12:00:00+05:00 decoding to the instant 1704092400000000. -/
theorem C1_roundtrip_witness :
    roundTrip (.bool true) = .ok (.bool true)
  ∧ roundTrip (.int 42) = .ok (.int 42)
  ∧ pyEq (.int 42) (.int 42) = some true
  ∧ pyEq (.float 4607182418800017408) (.float 4607182418800017408) = some true
  ∧ roundTrip (.str "hi") = .ok (.str "hi")
  ∧ roundTrip (.datetime ⟨2024, 1, 1, 12, 0, 0, 0, some (some 18000)⟩) =
      .ok (.datetime (tsPyDT 1704092400000000))
  ∧ pyEq (.datetime (tsPyDT 1704092400000000))
      (.datetime ⟨2024, 1, 1, 12, 0, 0, 0, some (some 18000)⟩) = some true := by
  have h := C1_roundtrip true 42 4607182418800017408 "hi"
    ⟨2024, 1, 1, 12, 0, 0, 0, some (some 18000)⟩ 18000
  have hdt := h.2.2.2.2.2 (by decide) rfl (by decide) (by decide)
  exact ⟨h.1.1, (h.2.1 (by norm_num) (by norm_num)).1, (h.2.1 (by norm_num) (by norm_num)).2,
         h.2.2.2.1 (by decide), (h.2.2.2.2.1).1, hdt.1, hdt.2⟩
